import Mathlib

/-!
Verification of the PANARCHY deterministic tick-driven world simulator.

Numeric model: Rust `f64` arithmetic is embedded as exact rational
arithmetic (`ℚ`).  All values of type `ℚ` are finite, so the source's
`is_finite` guards on plain finite-by-construction quantities reduce to
`true`; where the source deliberately manufactures `f64::INFINITY`
(missing infrastructure capacities, the loan-to-deposit ratio) the
embedding uses `Option ℚ` with `none` standing for infinity, mirroring
the `is_finite` branches of the source.

Component records and per-system update rules are translated from
`src/world.rs` and `src/systems/*.rs`; the engine driver from
`src/engine/mod.rs` and `src/rng.rs`; the earlier-generation snapshot
writer from `src/snapshot.rs`.
-/

/-- Rust `f64::clamp(lo, hi)` for `lo ≤ hi`, over `ℚ`. -/
def rclamp (x lo hi : ℚ) : ℚ := min (max x lo) hi

/-- Rust `f64::round` (round half away from zero), over `ℚ`. -/
def rustRound (x : ℚ) : ℤ := if 0 ≤ x then ⌊x + 1/2⌋ else ⌈x - 1/2⌉

/-- The `EPS = 1e-9` guard constant shared by the economy, finance and
infrastructure systems. -/
def EPS : ℚ := 1/1000000000

/-- `Region` component, from `src/world.rs`. -/
structure RegionComponent where
  name : String
  food_regen_per_1000 : ℚ
  energy_regen_per_1000 : ℚ
  deriving Repr, DecidableEq

/-- `Population` component, from `src/world.rs`. -/
structure PopulationComponent where
  citizens : ℕ
  employed : ℕ
  annual_birth_rate : ℚ
  annual_death_rate : ℚ
  food_consumption_per_capita : ℚ
  energy_consumption_per_capita : ℚ
  target_employment_rate : ℚ
  deriving Repr, DecidableEq

/-- `ResourceStock` component, from `src/world.rs`. -/
structure ResourceStock where
  food : ℚ
  energy : ℚ
  deriving Repr, DecidableEq

/-- `ResourceStock::clamp_non_negative`, from `src/world.rs`. -/
def ResourceStock.clamp_non_negative (s : ResourceStock) : ResourceStock :=
  { food := max s.food 0, energy := max s.energy 0 }

/-- One region's update of `EnvironmentSystem::run`
(`src/systems/environment.rs`): regeneration gains, each clamped to be
non-negative, are added to the stocks.  `fluctuation` is the value the
source draws from `rng.gen_range(0.95..1.05)`. -/
def EnvironmentSystem.stepRegion (region : RegionComponent) (pop : PopulationComponent)
    (stock : ResourceStock) (dt fluctuation : ℚ) : ResourceStock :=
  let thousands := max ((pop.citizens : ℚ) / 1000) (1/10)
  let food_gain := region.food_regen_per_1000 * thousands * dt * fluctuation
  let energy_gain := region.energy_regen_per_1000 * thousands * dt * fluctuation
  { food := stock.food + max food_gain 0
    energy := stock.energy + max energy_gain 0 }

/-- One region's update of `PopulationSystem::run`
(`src/systems/population.rs`).  `econ` carries the previous-tick
`(labor_demand, job_matching_efficiency, food_shortage_ratio)` of the
region's Economy component when present; `shock` is the value the
source draws from `rng.gen_range(0.975..1.025)`.  Returns the updated
Population component and whether the region's name was appended to
`starving_regions`. -/
def PopulationSystem.stepRegion (pop : PopulationComponent)
    (econ : Option (ℚ × ℚ × ℚ)) (dt shock : ℚ) : PopulationComponent × Bool :=
  let v := econ.getD ((pop.citizens : ℚ) * pop.target_employment_rate, 1, 0)
  let labor_demand := v.1
  let matching_efficiency := v.2.1
  let food_shortage_ratio := v.2.2
  let dt_years := dt / 365
  let births := rustRound ((pop.citizens : ℚ) * pop.annual_birth_rate * dt_years)
  let deaths := rustRound ((pop.citizens : ℚ) * pop.annual_death_rate * dt_years)
  let starvation_penalty : ℤ := ⌈(pop.citizens : ℚ) * food_shortage_ratio * (5/100)⌉
  let net_delta :=
    births - deaths - (if 0 < starvation_penalty then starvation_penalty else 0)
  let desired_employment := rustRound (labor_demand * matching_efficiency * shock)
  let employed := (max (min (max desired_employment 0) (pop.citizens : ℤ)) 0).toNat
  let next_citizens := (max ((pop.citizens : ℤ) + net_delta) 0).toNat
  ({ pop with citizens := next_citizens, employed := min employed next_citizens },
    decide (0 < starvation_penalty))

/-- `Infrastructure` component, from `src/world.rs`. -/
structure InfrastructureComponent where
  power_capacity : ℚ
  transport_capacity : ℚ
  maintenance_cost : ℚ
  degradation_rate : ℚ
  reliability : ℚ
  pending_investment : ℚ
  deriving Repr, DecidableEq

/-- One region's update of `InfrastructureSystem::run`
(`src/systems/infrastructure.rs`).  `economy_view` carries the region's
previous-tick `(energy_shortage_ratio, transport_shortfall,
energy_curtailed, energy_dispatched)` when an Economy component exists.
Returns the updated Infrastructure component together with the
maintenance charge `maintenance_cost * dt` passed on to Finance. -/
def InfrastructureSystem.stepRegion (infra : InfrastructureComponent)
    (economy_view : Option (ℚ × ℚ × ℚ × ℚ)) (dt : ℚ) :
    InfrastructureComponent × ℚ :=
  let degrade := rclamp (infra.degradation_rate * dt) 0 (1/2)
  let power1 := max (infra.power_capacity * (1 - degrade)) 0
  let transport1 := max (infra.transport_capacity * (1 - degrade * (8/10))) 0
  let realized := min (infra.pending_investment * (2/10)) infra.pending_investment
  let invested :=
    if 0 < realized then
      (power1 + realized * (6/10), transport1 + realized * (4/10),
        infra.pending_investment - realized)
    else (power1, transport1, infra.pending_investment)
  let reliability2 :=
    match economy_view with
    | some (energy_shortage, transport_shortfall, curtailed, dispatched) =>
      let energy_flow := max (dispatched + curtailed) EPS
      let curtailed_share := rclamp (curtailed / energy_flow) 0 1
      let outage_penalty := energy_shortage * (6/10) + transport_shortfall * (3/10) +
        curtailed_share * (1/10)
      let reliability_score := rclamp (1 - outage_penalty) 0 1
      let decayed := infra.reliability * (1 - degrade * (4/10))
      rclamp (decayed * (7/10) + reliability_score * (3/10)) 0 1
    | none => infra.reliability * (1 - degrade * (4/10))
  ({ infra with
      power_capacity := invested.1
      transport_capacity := invested.2.1
      pending_investment := invested.2.2
      reliability := reliability2 },
    infra.maintenance_cost * dt)

/-- `Finance` component, from `src/world.rs`. -/
structure FinanceComponent where
  bank_deposits : ℚ
  loan_balance : ℚ
  policy_rate : ℚ
  loan_rate_spread : ℚ
  deposit_rate : ℚ
  default_rate : ℚ
  target_loan_to_deposit : ℚ
  infrastructure_spend_fraction : ℚ
  credit_stress : ℚ
  cumulative_defaults : ℚ
  deriving Repr, DecidableEq

/-- Stages of `FinanceSystem::run` (`src/systems/finance.rs`) before the
spread adjustment: net-cash allocation, interest accrual, credit-stress
EMA and defaults.  `econ` is the current-tick
`(sales_revenue, wage_bill, food_shortage_ratio, energy_shortage_ratio,
transport_shortfall)`.  Returns the updated component and the
infrastructure investment to be added to `pending_investment`. -/
def FinanceSystem.preSpread (fin : FinanceComponent)
    (econ : ℚ × ℚ × ℚ × ℚ × ℚ) (dt : ℚ) : FinanceComponent × ℚ :=
  let revenue := econ.1
  let wage_bill := econ.2.1
  let food_shortage := econ.2.2.1
  let energy_shortage := econ.2.2.2.1
  let transport_shortfall := econ.2.2.2.2
  let dt_years := dt / 365
  let net_cash := revenue - wage_bill
  let afterCash :=
    if 0 ≤ net_cash then
      (fin.bank_deposits + (net_cash - net_cash * fin.infrastructure_spend_fraction),
        fin.loan_balance, net_cash * fin.infrastructure_spend_fraction)
    else
      let need := -net_cash
      if need ≤ fin.bank_deposits then (fin.bank_deposits - need, fin.loan_balance, 0)
      else (0, fin.loan_balance + (need - fin.bank_deposits), 0)
  let deposits1 := afterCash.1
  let loans1 := afterCash.2.1
  let infra_investment := afterCash.2.2
  let loan_rate := max (fin.policy_rate + fin.loan_rate_spread) 0
  let loans2 := if 0 < loans1 then loans1 * (1 + loan_rate * dt_years) else loans1
  let deposits2 :=
    if 0 < deposits1 then deposits1 * (1 + max fin.deposit_rate 0 * dt_years) else deposits1
  let stress_signal := (food_shortage + energy_shortage) * (5/10) +
    transport_shortfall * (5/10)
  let stress := rclamp stress_signal 0 2
  let credit_stress1 := fin.credit_stress * (85/100) + stress * (15/100)
  let default_rate1 := fin.default_rate * (1 + credit_stress1)
  let afterDefault :=
    if 0 < loans2 then
      let defaults := loans2 * default_rate1 * dt_years
      (max (loans2 - defaults) 0, fin.cumulative_defaults + defaults)
    else (loans2, fin.cumulative_defaults)
  ({ fin with
      bank_deposits := deposits2
      loan_balance := afterDefault.1
      credit_stress := credit_stress1
      cumulative_defaults := afterDefault.2 },
    infra_investment)

/-- Spread-adjustment stage of `FinanceSystem::run`
(`src/systems/finance.rs`, lines 96-110): the loan-to-deposit ratio is
`loan_balance / bank_deposits` when `bank_deposits > EPS`, infinite
(`none`) when deposits are at most `EPS` but loans are positive, and `0`
otherwise; the spread is raised only when the ratio is finite and above
target, and multiplied by `0.995` otherwise, then clamped to
`[0, 0.5]`. -/
def FinanceSystem.spreadAdjust (fin : FinanceComponent) : FinanceComponent :=
  let loan_to_deposit : Option ℚ :=
    if EPS < fin.bank_deposits then some (fin.loan_balance / fin.bank_deposits)
    else if 0 < fin.loan_balance then none
    else some 0
  let spread1 :=
    match loan_to_deposit with
    | some ltd =>
      if fin.target_loan_to_deposit < ltd then
        fin.loan_rate_spread * (1 + (5/100) * min (ltd / fin.target_loan_to_deposit - 1) 1)
      else fin.loan_rate_spread * (995/1000)
    | none => fin.loan_rate_spread * (995/1000)
  { fin with loan_rate_spread := rclamp spread1 0 (1/2) }

/-- One region's update of `FinanceSystem::run`
(`src/systems/finance.rs`) for a region whose Economy component exists:
the pre-spread stages followed by the spread adjustment. -/
def FinanceSystem.stepRegion (fin : FinanceComponent)
    (econ : ℚ × ℚ × ℚ × ℚ × ℚ) (dt : ℚ) : FinanceComponent × ℚ :=
  let pre := FinanceSystem.preSpread fin econ dt
  (FinanceSystem.spreadAdjust pre.1, pre.2)

/-- `Economy` component, from `src/world.rs`. -/
structure EconomyComponent where
  food_productivity_per_worker : ℚ
  energy_productivity_per_worker : ℚ
  wage : ℚ
  target_inventory_days : ℚ
  price_adjustment_rate : ℚ
  wage_adjustment_rate : ℚ
  job_matching_efficiency : ℚ
  basic_income_per_capita : ℚ
  propensity_to_consume : ℚ
  food_price : ℚ
  energy_price : ℚ
  labor_demand : ℚ
  household_budget : ℚ
  food_shortage_ratio : ℚ
  energy_shortage_ratio : ℚ
  wage_bill : ℚ
  sales_revenue : ℚ
  energy_dispatched : ℚ
  energy_curtailed : ℚ
  transport_utilization : ℚ
  transport_shortfall : ℚ

/-- `adjust_price` from `src/systems/economy.rs`: raise the price under
shortage, lower it on inventory glut, with a `0.1` floor. -/
def adjust_price (price shortage_ratio inventory target_inventory adjustment_rate : ℚ) : ℚ :=
  let next :=
    if 1/1000 < shortage_ratio then
      price * (1 + adjustment_rate * min shortage_ratio 1)
    else
      let ratio := if EPS < target_inventory then inventory / target_inventory else 1
      if 115/100 < ratio then price * (1 - adjustment_rate * min ((ratio - 1) / ratio) (1/2))
      else price
  max next (1/10)

/-- `adjust_wages` from `src/systems/economy.rs`: move the wage by the
clamped labor gap ratio, with a `1.0` floor (the non-finite fallback of
the source never fires over `ℚ`). -/
def adjust_wages (wage rate labor_demand employed citizens : ℚ) : ℚ :=
  if citizens ≤ 0 then wage
  else
    let gap_ratio := rclamp ((labor_demand - employed) / citizens) (-(1/2)) (1/2)
    max (wage * (1 + rate * gap_ratio)) 1

/-- The worker split of `EconomySystem::run`: employed workers are
divided between food and energy proportionally to the labor needed,
50/50 when total labor needed is at most `EPS`. -/
def EconomySystem.laborSplit (employed lnf lne : ℚ) : ℚ × ℚ :=
  if EPS < lnf + lne then
    (employed * (lnf / (lnf + lne)), employed * (lne / (lnf + lne)))
  else (employed * (5/10), employed * (5/10))

/-- The power-capacity cap on dispatched energy in `EconomySystem::run`:
with an Infrastructure component the output is capped by
`max(power_capacity · dt, 0)`; without one the capacity is infinite and
the full output is dispatched. -/
def EconomySystem.dispatchCap (energy_output : ℚ) (infra : Option (ℚ × ℚ)) (dt : ℚ) : ℚ :=
  match infra with
  | some p => min energy_output (max (p.1 * dt) 0)
  | none => energy_output

/-- Result of one region's Economy update, exposing the locals
`demand_scale`, `sold_food` and `sold_energy` of the source alongside
the mutated components. -/
structure EconomyStepResult where
  stock : ResourceStock
  economy : EconomyComponent
  demand_scale : ℚ
  sold_food : ℚ
  sold_energy : ℚ

/-- One region's update of `EconomySystem::run`
(`src/systems/economy.rs`).  `infra` is `some (power_capacity,
transport_capacity)` when the region has an Infrastructure component and
`none` otherwise (the source's `(f64::INFINITY, f64::INFINITY)`
fallback); the `is_finite` branches of the source are mirrored by
matching on the option. -/
def EconomySystem.stepRegion (citizens employed : ℕ)
    (food_per_capita energy_per_capita : ℚ) (stock : ResourceStock)
    (economy : EconomyComponent) (infra : Option (ℚ × ℚ)) (dt : ℚ) :
    EconomyStepResult :=
  let citizensQ := (citizens : ℚ)
  let employedQ := (employed : ℚ)
  if citizensQ ≤ 0 then
    { stock := stock
      economy := { economy with
        labor_demand := 0, household_budget := 0, food_shortage_ratio := 0,
        energy_shortage_ratio := 0, energy_dispatched := 0, energy_curtailed := 0,
        transport_utilization := 0, transport_shortfall := 0, wage_bill := 0,
        sales_revenue := 0 }
      demand_scale := 0, sold_food := 0, sold_energy := 0 }
  else
    let desired_food := citizensQ * food_per_capita * dt
    let desired_energy := citizensQ * energy_per_capita * dt
    let inventory_target_food := desired_food * economy.target_inventory_days
    let inventory_target_energy := desired_energy * economy.target_inventory_days
    let food_gap := max (inventory_target_food - stock.food) 0
    let energy_gap := max (inventory_target_energy - stock.energy) 0
    let per_worker_food := max (economy.food_productivity_per_worker * dt) EPS
    let per_worker_energy := max (economy.energy_productivity_per_worker * dt) EPS
    let labor_needed_food := (desired_food + food_gap) / per_worker_food
    let labor_needed_energy := (desired_energy + energy_gap) / per_worker_energy
    let total_labor_needed := labor_needed_food + labor_needed_energy
    let labor_demand1 := max total_labor_needed 0
    let workers := EconomySystem.laborSplit employedQ labor_needed_food labor_needed_energy
    let food1 := stock.food + workers.1 * per_worker_food
    let energy_output := workers.2 * per_worker_energy
    let energy_dispatched := EconomySystem.dispatchCap energy_output infra dt
    let curtailed_energy := max (energy_output - energy_dispatched) 0
    let energy1 := stock.energy + energy_dispatched
    let wage_income := economy.wage * employedQ * dt
    let unemployed := max (citizensQ - employedQ) 0
    let basic_income := economy.basic_income_per_capita * unemployed * dt
    let budget := max (wage_income + basic_income) 0 * economy.propensity_to_consume
    let desired_cost := desired_food * economy.food_price + desired_energy * economy.energy_price
    let demand_scale := if EPS < desired_cost then rclamp (budget / desired_cost) 0 1 else 0
    let scaled_food_demand := desired_food * demand_scale
    let scaled_energy_demand := desired_energy * demand_scale
    let total_dispatch := scaled_food_demand + scaled_energy_demand
    let transport_ratio :=
      match infra with
      | some p =>
        let t := max (p.2 * dt) 0
        if t < total_dispatch - EPS then
          if EPS < total_dispatch then rclamp (t / total_dispatch) 0 1 else 1
        else 1
      | none => 1
    let deliverable_food := scaled_food_demand * transport_ratio
    let deliverable_energy := scaled_energy_demand * transport_ratio
    let sold_food := min deliverable_food food1
    let food2 := food1 - sold_food
    let sold_energy := min deliverable_energy energy1
    let energy2 := energy1 - sold_energy
    let delivered_total := sold_food + sold_energy
    let transport_utilization :=
      match infra with
      | some p =>
        let t := max (p.2 * dt) 0
        if EPS < t then rclamp (delivered_total / t) 0 1 else 0
      | none => 0
    let transport_shortfall :=
      if EPS < total_dispatch then
        rclamp (max (total_dispatch - delivered_total) 0 / total_dispatch) 0 1
      else 0
    let food_shortage_ratio :=
      if EPS < desired_food then rclamp (max (desired_food - sold_food) 0 / desired_food) 0 1
      else 0
    let energy_shortage_ratio :=
      if EPS < desired_energy then
        rclamp (max (desired_energy - sold_energy) 0 / desired_energy) 0 1
      else 0
    let sales_revenue := sold_food * economy.food_price + sold_energy * economy.energy_price
    { stock := { food := food2, energy := energy2 }
      economy := { economy with
        labor_demand := labor_demand1
        household_budget := budget
        wage_bill := wage_income
        energy_dispatched := energy_dispatched
        energy_curtailed := curtailed_energy
        transport_utilization := transport_utilization
        transport_shortfall := transport_shortfall
        food_shortage_ratio := food_shortage_ratio
        energy_shortage_ratio := energy_shortage_ratio
        sales_revenue := sales_revenue
        food_price := adjust_price economy.food_price food_shortage_ratio food2
          inventory_target_food economy.price_adjustment_rate
        energy_price := adjust_price economy.energy_price energy_shortage_ratio energy2
          inventory_target_energy economy.price_adjustment_rate
        wage := adjust_wages economy.wage economy.wage_adjustment_rate labor_demand1
          employedQ citizensQ }
      demand_scale := demand_scale
      sold_food := sold_food
      sold_energy := sold_energy }

/-- `Policy` component.  Modelled from the spec: the `PolicyComponent`
declaration is absent from `src/world.rs` (only its users
`src/systems/policy.rs` and `src/scenario.rs` are in the tree); the
fields follow §3 of the spec and match every field access of those
users. -/
structure PolicyComponent where
  tax_rate : ℚ
  transfer_per_capita : ℚ
  public_investment_fraction : ℚ
  rnd_fraction : ℚ
  target_unemployment_rate : ℚ
  target_primary_balance : ℚ
  budget_balance : ℚ
  public_debt : ℚ
  approval_rating : ℚ
  last_tax_revenue : ℚ
  last_transfers : ℚ
  last_public_investment : ℚ
  last_rnd_allocation : ℚ

/-- One region's treatment by `PolicySystem::run`
(`src/systems/policy.rs`): regions with no Population component, zero
citizens, or no Economy component are skipped (`continue`) and their
Policy component is left untouched; otherwise the full fiscal update
runs and the write-backs `(rnd_allocation, public_investment,
updated_transfer)` are returned.  `econ` is the current-tick
`(sales_revenue, food_shortage_ratio, energy_shortage_ratio,
transport_shortfall)`. -/
def PolicySystem.runRegion (policy : PolicyComponent) (pop : Option (ℕ × ℕ))
    (econ : Option (ℚ × ℚ × ℚ × ℚ)) (baseline_rnd : ℚ) (dt : ℚ) :
    PolicyComponent × Option (ℚ × ℚ × ℚ) :=
  match pop with
  | none => (policy, none)
  | some (citizens, employed) =>
    if (citizens : ℚ) ≤ 0 then (policy, none)
    else
      match econ with
      | none => (policy, none)
      | some (sales_revenue, food_shortage, energy_shortage, transport_shortfall) =>
        let citizensQ := (citizens : ℚ)
        let employedQ := (employed : ℚ)
        let unemployment_rate := if 0 < citizensQ then 1 - employedQ / citizensQ else 0
        let gdp := max sales_revenue 0
        let tax_revenue := max (gdp * max policy.tax_rate 0) 0
        let unemployed := max (citizensQ - employedQ) 0
        let transfers := max policy.transfer_per_capita 0 * unemployed * dt
        let discretionary := tax_revenue - transfers
        let guaranteed_rnd := citizensQ * max baseline_rnd 0 * dt
        let extra_rnd := max discretionary 0 * max policy.rnd_fraction 0
        let rnd_allocation := max (guaranteed_rnd + extra_rnd) 0
        let remaining := discretionary - extra_rnd
        let public_investment := max remaining 0 * max policy.public_investment_fraction 0
        let spending := transfers + public_investment + rnd_allocation
        let budget_balance := tax_revenue - spending
        let public_debt1 :=
          if budget_balance < 0 then policy.public_debt + (-budget_balance)
          else max (policy.public_debt - budget_balance * (35/100)) 0
        let unemployment_gap := unemployment_rate - policy.target_unemployment_rate
        let adjusted :=
          if 1/100 < unemployment_gap then
            let pressure := min unemployment_gap (25/100)
            (policy.transfer_per_capita * (1 + (5/10) * pressure),
              policy.tax_rate * (1 - (6/100) * pressure))
          else if unemployment_gap < -(1/100) then
            let pressure := min (-unemployment_gap) (25/100)
            (policy.transfer_per_capita * (1 - (4/10) * pressure),
              policy.tax_rate * (1 + (5/100) * pressure))
          else (policy.transfer_per_capita, policy.tax_rate)
        let balance_gap := budget_balance - policy.target_primary_balance
        let tax2 :=
          if balance_gap < 0 then
            let severity := rclamp (-balance_gap / (|tax_revenue| + 1)) 0 (1/10)
            adjusted.2 * (1 + severity)
          else adjusted.2 * (999/1000)
        let shortage_signal := (food_shortage + energy_shortage) * (5/10) +
          transport_shortfall * (5/10)
        let approval_signal := rclamp (1 - unemployment_rate) 0 1 * (6/10) +
          rclamp (1 - shortage_signal) 0 1 * (4/10)
        let approval := rclamp (policy.approval_rating * (85/100) +
          approval_signal * (15/100)) 0 1
        let tax3 := rclamp tax2 (4/100) (65/100)
        let transfer2 := rclamp adjusted.1 5 400
        ({ policy with
            tax_rate := tax3
            transfer_per_capita := transfer2
            budget_balance := budget_balance
            public_debt := public_debt1
            approval_rating := approval
            last_tax_revenue := tax_revenue
            last_transfers := transfers
            last_public_investment := public_investment
            last_rnd_allocation := rnd_allocation },
          some (rnd_allocation, public_investment, transfer2))

/-- Zero-padding of `format!("tick_:06")`-style tick numbers: decimal
digits left-padded with zeros to width at least six. -/
def pad6 (n : ℕ) : String :=
  let s := toString n
  String.mk (List.replicate (6 - s.length) (Char.ofNat 48)) ++ s

/-- `SnapshotError` from `src/snapshot.rs`; the `std::io::Error` payload
is modelled as its message string. -/
inductive SnapshotError where
  | io : String → SnapshotError
  deriving Repr, DecidableEq

/-- `SnapshotManager::maybe_snapshot` from `src/snapshot.rs`.  The
filesystem is modelled by two oracles: `create_dir_all` and `write`
(path and contents), each returning `Except.error` with the message of
the failed io operation; the serialized world contents are the opaque
string `json` (the `WorldState` type that `serialize_world` consumes is
absent from the tree).  Returns the written path, `none` when the
cadence does not fire, or the propagated error. -/
def SnapshotManager.maybe_snapshot (interval : ℕ) (output_dir scenario_name : String)
    (tick : ℕ) (json : String) (create_dir_all : String → Except String Unit)
    (write : String → String → Except String Unit) :
    Except SnapshotError (Option String) :=
  if interval = 0 then Except.ok none
  else if tick % interval ≠ 0 then Except.ok none
  else
    let dir := output_dir ++ "/" ++ scenario_name
    match create_dir_all dir with
    | Except.error e => Except.error (SnapshotError.io e)
    | Except.ok _ =>
      let file_path := dir ++ "/" ++ ("tick_" ++ pad6 tick ++ ".json")
      match write file_path json with
      | Except.error e => Except.error (SnapshotError.io e)
      | Except.ok _ => Except.ok (some file_path)

/-- `ResearchProject`.  Modelled from the spec: the declaration is
absent from `src/world.rs` (used by `src/systems/technology.rs`);
fields follow §3 (`active_project`: tech id, progress, difficulty). -/
structure ResearchProject where
  tech_id : ℕ
  progress : ℚ
  difficulty : ℚ

/-- `Technology` component.  Modelled from the spec: the
`TechnologyComponent` declaration is absent from `src/world.rs` (only
its users `src/systems/technology.rs` and `src/scenario.rs` are in the
tree); fields follow §3 of the spec and the users' field accesses. -/
structure TechnologyComponent where
  base_food_productivity : ℚ
  base_energy_productivity : ℚ
  unlocked : List ℕ
  active_project : Option ResearchProject
  research_efficiency : ℚ
  baseline_rnd_budget_per_capita : ℚ
  current_allocation : ℚ
  innovation_score : ℚ

/-- `BookkeepingState` from `src/world.rs`. -/
structure BookkeepingState where
  starving_regions : List String
  deriving Repr, DecidableEq

/-- `World` from `src/world.rs`, with each `HashMap` component store
modelled as an association list keyed by the entity id.  The `policies`
and `technology` stores used by `src/systems/policy.rs` and
`src/systems/technology.rs` are included although their declarations are
missing from the tree's `world.rs`. -/
structure World where
  next_entity : ℕ
  tick : ℕ
  days_elapsed : ℚ
  dt_days : ℚ
  regions : List (ℕ × RegionComponent)
  populations : List (ℕ × PopulationComponent)
  economies : List (ℕ × EconomyComponent)
  resources : List (ℕ × ResourceStock)
  finances : List (ℕ × FinanceComponent)
  infrastructure : List (ℕ × InfrastructureComponent)
  policies : List (ℕ × PolicyComponent)
  technology : List (ℕ × TechnologyComponent)
  bookkeeping : BookkeepingState

/-- `World::advance_time` from `src/world.rs`. -/
def World.advance_time (w : World) : World :=
  { w with tick := w.tick + 1, days_elapsed := w.days_elapsed + w.dt_days }

/-- `World::total_population` from `src/world.rs`. -/
def World.total_population (w : World) : ℕ :=
  (w.populations.map (fun p => p.2.citizens)).sum

/-- `RegionSnapshot` from `src/world.rs`. -/
structure RegionSnapshot where
  id : ℕ
  name : String
  citizens : ℕ
  employed : ℕ
  unemployment_rate : ℚ
  food : ℚ
  energy : ℚ
  wage : ℚ
  labor_demand : ℚ
  household_budget : ℚ
  food_price : ℚ
  energy_price : ℚ
  food_shortage_ratio : ℚ
  energy_shortage_ratio : ℚ
  bank_deposits : ℚ
  loan_balance : ℚ
  credit_stress : ℚ
  power_capacity : ℚ
  transport_capacity : ℚ
  infrastructure_reliability : ℚ

/-- `WorldSnapshot` from `src/world.rs`. -/
structure WorldSnapshot where
  scenario : String
  tick : ℕ
  days_elapsed : ℚ
  total_population : ℕ
  starving_regions : List String
  regions : List RegionSnapshot

/-- `World::snapshot` from `src/world.rs`: one `RegionSnapshot` per
region, sorted by ascending id.  The source `expect`s the population,
economy and resource components (the world invariant guarantees their
presence); absent entries are modelled by zeroed records, and the
optional finance and infrastructure reads mirror the source's
`unwrap_or(0.0)` defaults. -/
def World.snapshot (w : World) (scenario : String) : WorldSnapshot :=
  let entries := w.regions.map (fun p =>
    let id := p.1
    let region := p.2
    let population := (w.populations.lookup id).getD ⟨0, 0, 0, 0, 0, 0, 0⟩
    let economy := (w.economies.lookup id).getD
      ⟨0, 0, 0, 0, 0, 0, 0, 0, 0, 0, 0, 0, 0, 0, 0, 0, 0, 0, 0, 0, 0⟩
    let stock := (w.resources.lookup id).getD ⟨0, 0⟩
    let finance := w.finances.lookup id
    let infra := w.infrastructure.lookup id
    let unemployment_rate :=
      if 0 < population.citizens then
        1 - (population.employed : ℚ) / (population.citizens : ℚ)
      else 0
    { id := id
      name := region.name
      citizens := population.citizens
      employed := population.employed
      unemployment_rate := unemployment_rate
      food := stock.food
      energy := stock.energy
      wage := economy.wage
      labor_demand := economy.labor_demand
      household_budget := economy.household_budget
      food_price := economy.food_price
      energy_price := economy.energy_price
      food_shortage_ratio := economy.food_shortage_ratio
      energy_shortage_ratio := economy.energy_shortage_ratio
      bank_deposits := ((finance.map (fun f => f.bank_deposits)).getD 0)
      loan_balance := ((finance.map (fun f => f.loan_balance)).getD 0)
      credit_stress := ((finance.map (fun f => f.credit_stress)).getD 0)
      power_capacity := ((infra.map (fun i => i.power_capacity)).getD 0)
      transport_capacity := ((infra.map (fun i => i.transport_capacity)).getD 0)
      infrastructure_reliability := ((infra.map (fun i => i.reliability)).getD 0)
      : RegionSnapshot })
  { scenario := scenario
    tick := w.tick
    days_elapsed := w.days_elapsed
    total_population := w.total_population
    starving_regions := w.bookkeeping.starving_regions
    regions := entries.insertionSort (fun a b => a.id ≤ b.id) }

/-- Modelled from the spec: the current-generation `BookkeepingSystem`
is absent from the tree — `src/systems/bookkeeping.rs` holds the
earlier metrics-only generation over the equally absent `WorldState`,
while the current system is only referenced by `tests/engine_hook.rs`
and `src/web/mod.rs`.  Spec §4.11: runs last, clamps every resource
stock to `≥ 0` (via `ResourceStock::clamp_non_negative` of
`src/world.rs`), then sorts and deduplicates
`world.bookkeeping.starving_regions`, and has no other effect. -/
def BookkeepingSystem.run (world : World) : World :=
  { world with
    resources := world.resources.map (fun p => (p.1, p.2.clamp_non_negative))
    bookkeeping := { starving_regions :=
      (world.bookkeeping.starving_regions.insertionSort (· ≤ ·)).dedup } }

/-- `EngineSettings` from `src/engine/mod.rs`. -/
structure EngineSettings where
  scenario_name : String
  seed : ℕ
  snapshot_interval_ticks : ℕ
  snapshot_dir : String

/-- `RngManager` from `src/rng.rs`: a master generator plus named
cached substreams.  The `ChaCha8Rng` generator of the `rand_chacha`
crate is external to the tree, so the development is parametric in the
generator state type `Gen`; every theorem below holds for every choice
of generator implementation. -/
structure RngManager (Gen : Type) where
  master : Gen
  streams : List (String × Gen)

/-- `RngManager::new` from `src/rng.rs`: seed the master generator from
the scenario seed (`seedFrom` stands for `ChaCha8Rng::seed_from_u64`). -/
def RngManager.new (seedFrom : ℕ → Gen) (seed : ℕ) : RngManager Gen :=
  { master := seedFrom seed, streams := [] }

/-- `RngManager::stream` from `src/rng.rs`: return the cached substream
for `name`, or derive a fresh 64-bit seed from the master (`drawSeed`
stands for `fill_bytes` of 32 bytes followed by `u64::from_le_bytes` of
the first 8), seed a new substream and cache it. -/
def RngManager.stream (seedFrom : ℕ → Gen) (drawSeed : Gen → ℕ × Gen)
    (mgr : RngManager Gen) (name : String) : Gen × RngManager Gen :=
  match mgr.streams.lookup name with
  | some g => (g, mgr)
  | none =>
    let drawn := drawSeed mgr.master
    let g := seedFrom drawn.1
    (g, { master := drawn.2, streams := (name, g) :: mgr.streams })

/-- Write back the post-run state of a leased substream (the source
mutates the cached stream in place through the `SystemRng` borrow). -/
def RngManager.put (mgr : RngManager Gen) (name : String) (g : Gen) : RngManager Gen :=
  { mgr with streams := mgr.streams.map (fun p => if p.1 = name then (p.1, g) else p) }

/-- `SystemContext` from `src/engine/mod.rs`. -/
structure SystemContext where
  tick : ℕ
  dt_days : ℚ
  scenario_name : String

/-- The `System` trait of `src/engine/mod.rs`: a name and a pure update
over the world and the leased RNG substream (every system in the tree
returns `Ok`, so failure is not modelled). -/
structure SystemImpl (Gen : Type) where
  name : String
  run : SystemContext → World → Gen → World × Gen

/-- One iteration of the per-tick system loop of `Engine::run`
(`src/engine/mod.rs` lines 64-72): lease the substream named by the
system, build the context with the pre-advance tick, run the system,
store the substream back. -/
def Engine.sysStep (seedFrom : ℕ → Gen) (drawSeed : Gen → ℕ × Gen) (scenario : String)
    (current_tick : ℕ) (acc : World × RngManager Gen) (sys : SystemImpl Gen) :
    World × RngManager Gen :=
  let leased := RngManager.stream seedFrom drawSeed acc.2 sys.name
  let ctx : SystemContext := ⟨current_tick, acc.1.dt_days, scenario⟩
  let ran := sys.run ctx acc.1 leased.1
  (ran.1, leased.2.put sys.name ran.2)

/-- The body of `Engine::run` for one tick (`src/engine/mod.rs` lines
62-73): fold the system steps over the declared order, then
`World::advance_time`. -/
def Engine.tickOnce (seedFrom : ℕ → Gen) (drawSeed : Gen → ℕ × Gen) (scenario : String)
    (systems : List (SystemImpl Gen)) (world : World) (rng : RngManager Gen) :
    World × RngManager Gen :=
  let wr := systems.foldl (Engine.sysStep seedFrom drawSeed scenario world.tick) (world, rng)
  (wr.1.advance_time, wr.2)

/-- Modelled from the spec: `SnapshotWriter` is absent from the tree
(`src/engine/mod.rs` imports it from `crate::snapshot`, which holds
other types).  Spec §4.12: after the tick counter has advanced, if
`interval > 0`, `tick > 0` and `tick mod interval == 0`, write
`<root>/<scenario>/tick_NNNNNN.json` containing the §6 snapshot view;
the write is modelled as the returned `(path, contents)` pair. -/
def SnapshotWriter.maybe_write (interval : ℕ) (dir scenario : String) (w : World) :
    Option (String × WorldSnapshot) :=
  if 0 < interval ∧ 0 < w.tick ∧ w.tick % interval = 0 then
    some (dir ++ "/" ++ scenario ++ "/" ++ ("tick_" ++ pad6 w.tick ++ ".json"),
      w.snapshot scenario)
  else none

/-- A hook frame.  Modelled from the spec (§6): the §6 snapshot shape
plus a `completed` flag set true only on the terminal frame. -/
structure HookFrame where
  snap : WorldSnapshot
  completed : Bool

/-- Modelled from the spec: `Engine::run_with_hook` is absent from the
tree (only its callers `tests/engine_hook.rs` and `src/web/mod.rs`
remain; `Engine::run` in `src/engine/mod.rs` is the hook-less loop).
Spec §4.1: per tick, run all systems in order with named substreams,
advance time, ask the snapshot writer, then invoke the hook with a
newly built world snapshot; the hook invocations are modelled as the
returned frame list, snapshot writes as the `(path, contents)` list. -/
def Engine.runWithHook (seedFrom : ℕ → Gen) (drawSeed : Gen → ℕ × Gen)
    (settings : EngineSettings) (systems : List (SystemImpl Gen)) (world : World)
    (rng : RngManager Gen) (ticks : ℕ) :
    World × RngManager Gen × List (String × WorldSnapshot) × List HookFrame :=
  match ticks with
  | 0 => (world, rng, [], [])
  | n + 1 =>
    let stepped := Engine.tickOnce seedFrom drawSeed settings.scenario_name systems world rng
    let written := SnapshotWriter.maybe_write settings.snapshot_interval_ticks
      settings.snapshot_dir settings.scenario_name stepped.1
    let frame : HookFrame :=
      { snap := stepped.1.snapshot settings.scenario_name, completed := decide (n = 0) }
    let rest := Engine.runWithHook seedFrom drawSeed settings systems stepped.1 stepped.2 n
    (rest.1, rest.2.1, written.toList ++ rest.2.2.1, frame :: rest.2.2.2)

/-- `Engine::run` (`src/engine/mod.rs`): the same loop without a hook;
it returns the final world, RNG state and the snapshot writes. -/
def Engine.run (seedFrom : ℕ → Gen) (drawSeed : Gen → ℕ × Gen)
    (settings : EngineSettings) (systems : List (SystemImpl Gen)) (world : World)
    (rng : RngManager Gen) (ticks : ℕ) :
    World × RngManager Gen × List (String × WorldSnapshot) :=
  let r := Engine.runWithHook seedFrom drawSeed settings systems world rng ticks
  (r.1, r.2.1, r.2.2.1)

/-- Claim C9: the Environment system never decreases any region's resource
stocks: for every region, population, stock, time step and fluctuation
draw (even outside `[0.95, 1.05]`, and even with negative regeneration
rates), the post-step food and energy are at least the pre-step values,
because each computed gain is clamped to `≥ 0` before being added. -/
theorem environment_never_decreases_stocks
    (region : RegionComponent) (pop : PopulationComponent)
    (stock : ResourceStock) (dt fluctuation : ℚ) :
    stock.food ≤ (EnvironmentSystem.stepRegion region pop stock dt fluctuation).food ∧
    stock.energy ≤ (EnvironmentSystem.stepRegion region pop stock dt fluctuation).energy := by
  constructor <;>
    simp only [EnvironmentSystem.stepRegion] <;>
    exact le_add_of_nonneg_right (le_max_right _ 0)

/-- Claim C7: in one Population step over a region with an Economy
component whose (previous-tick) food shortage ratio is non-negative:
births and deaths follow the rounded annual-rate formulas, the
starvation penalty is `⌈citizens · food_shortage_ratio · 0.05⌉`, the
region is marked starving iff that penalty is positive, the new
citizens value is `max(citizens + births − deaths − penalty, 0)`, the
new employed value is
`min(clamp(round(labor_demand · eff · shock), 0, old citizens), new citizens)`,
and consequently `employed ≤ citizens` holds afterwards. -/
theorem population_step_formulas (pop : PopulationComponent)
    (labor_demand matching_efficiency food_shortage_ratio dt shock : ℚ)
    (hfsr : 0 ≤ food_shortage_ratio) :
    let r := PopulationSystem.stepRegion pop
      (some (labor_demand, matching_efficiency, food_shortage_ratio)) dt shock
    let births := rustRound ((pop.citizens : ℚ) * pop.annual_birth_rate * (dt / 365))
    let deaths := rustRound ((pop.citizens : ℚ) * pop.annual_death_rate * (dt / 365))
    let penalty : ℤ := ⌈(pop.citizens : ℚ) * food_shortage_ratio * (5/100)⌉
    r.1.citizens = (max ((pop.citizens : ℤ) + births - deaths - penalty) 0).toNat ∧
    (r.2 = true ↔ 0 < penalty) ∧
    r.1.employed =
      min (min (max (rustRound (labor_demand * matching_efficiency * shock)) 0)
        (pop.citizens : ℤ)).toNat r.1.citizens ∧
    r.1.employed ≤ r.1.citizens := by
  intro r births deaths penalty
  have hpen : 0 ≤ penalty :=
    Int.ceil_nonneg (by positivity)
  have hcit : (0 : ℤ) ≤ (pop.citizens : ℤ) := Int.ofNat_nonneg _
  refine ⟨?_, ?_, ?_, ?_⟩
  · show ((max ((pop.citizens : ℤ) +
        (births - deaths - (if 0 < penalty then penalty else 0))) 0).toNat) = _
    split_ifs with h
    · ring_nf
    · have : penalty = 0 := le_antisymm (not_lt.mp h) hpen
      simp [this]
      ring_nf
  · show decide (0 < penalty) = true ↔ 0 < penalty
    exact decide_eq_true_iff
  · show (min ((max (min (max (rustRound
        (labor_demand * matching_efficiency * shock)) 0) (pop.citizens : ℤ)) 0).toNat) _) = _
    have hmm : max (min (max (rustRound (labor_demand * matching_efficiency * shock)) 0)
        (pop.citizens : ℤ)) 0 =
        min (max (rustRound (labor_demand * matching_efficiency * shock)) 0)
          (pop.citizens : ℤ) := by
      apply max_eq_left
      exact le_min (le_max_right _ 0) hcit
    rw [hmm]
    rfl
  · exact min_le_right _ _

/-- Witness for `population_step_formulas`: a 1000-citizen region with a
10% food shortage. -/
theorem population_step_formulas_witness :
    (0 : ℚ) ≤ 1/10 ∧
    (let r := PopulationSystem.stepRegion
        ⟨1000, 600, 73/100, 0, 1, 1, 3/5⟩ (some (500, 1, 1/10)) 365 1
     let births := rustRound ((1000 : ℚ) * (73/100) * ((365 : ℚ) / 365))
     let deaths := rustRound ((1000 : ℚ) * 0 * ((365 : ℚ) / 365))
     let penalty : ℤ := ⌈(1000 : ℚ) * (1/10) * (5/100)⌉
     r.1.citizens = (max ((1000 : ℤ) + births - deaths - penalty) 0).toNat ∧
     (r.2 = true ↔ 0 < penalty) ∧
     r.1.employed = min (min (max (rustRound ((500 : ℚ) * 1 * 1)) 0) (1000 : ℤ)).toNat
       r.1.citizens ∧
     r.1.employed ≤ r.1.citizens) :=
  ⟨by norm_num,
    population_step_formulas ⟨1000, 600, 73/100, 0, 1, 1, 3/5⟩ 500 1 (1/10) 365 1
      (by norm_num)⟩

/-- Claim C5 counterexample: for a region with reliability 1,
`degradation_rate · dt = 1` (so `degrade = 0.5`), no shortages and
dispatched energy 1, the code yields reliability `0.86` (it decays the
old reliability by `1 − 0.4·degrade` first and applies the EMA second,
then clamps), whereas the claim's order — EMA first, then multiply the
EMA result by `1 − 0.4·degrade` — yields `0.8`. -/
theorem infrastructure_reliability_order_counterexample :
    (InfrastructureSystem.stepRegion
        ⟨0, 0, 0, 1, 1, 0⟩ (some (0, 0, 0, 1)) 1).1.reliability = 43/50 ∧
    (((7/10) * 1 + (3/10) * rclamp
        (1 - ((6/10) * 0 + (3/10) * 0 + (1/10) * (0 / (1 + 0)))) 0 1) *
      (1 - (4/10) * rclamp (1 * 1) 0 (1/2)) : ℚ) = 4/5 ∧
    (43/50 : ℚ) ≠ 4/5 := by
  refine ⟨?_, by norm_num [rclamp], by norm_num⟩
  norm_num [InfrastructureSystem.stepRegion, rclamp, EPS]

/-- Claim C5 (amended): for every region that has an Economy component,
one Infrastructure step updates reliability as follows:
`degrade = clamp(degradation_rate·dt, 0, 0.5)`;
`curtailed_share = clamp(curtailed / max(dispatched + curtailed, 1e-9), 0, 1)`;
`outage_penalty = 0.6·energy_shortage + 0.3·transport_shortfall + 0.1·curtailed_share`;
`reliability_score = clamp(1 − outage_penalty, 0, 1)`; the old
reliability is *first* multiplied by `1 − 0.4·degrade`, and the new
reliability is the clamped EMA
`clamp(0.7·decayed + 0.3·reliability_score, 0, 1)`. -/
theorem infrastructure_reliability_update (infra : InfrastructureComponent)
    (energy_shortage transport_shortfall curtailed dispatched dt : ℚ) :
    (InfrastructureSystem.stepRegion infra
        (some (energy_shortage, transport_shortfall, curtailed, dispatched)) dt).1.reliability =
      rclamp
        ((infra.reliability *
            (1 - rclamp (infra.degradation_rate * dt) 0 (1/2) * (4/10))) * (7/10) +
          rclamp (1 - (energy_shortage * (6/10) + transport_shortfall * (3/10) +
            rclamp (curtailed / max (dispatched + curtailed) EPS) 0 1 * (1/10))) 0 1 * (3/10))
        0 1 := by
  rfl

/-- Lower bound of `rclamp` when the band is non-degenerate. -/
theorem rclamp_lo (x lo hi : ℚ) (h : lo ≤ hi) : lo ≤ rclamp x lo hi :=
  le_min (le_max_right _ _) h

/-- Upper bound of `rclamp`. -/
theorem rclamp_hi (x lo hi : ℚ) : rclamp x lo hi ≤ hi := min_le_right _ _

/-- Claim C6 counterexample: a region with `bank_deposits = 0`,
`loan_balance = 100 > 0`, spread `0.1` and finite `target = 2`: after
one Finance step (zero revenue, wage bill, shortages and `dt = 0`) the
spread is `0.0995` — it *decreased*, because the infinite
loan-to-deposit ratio fails the `is_finite` guard and falls to the
`spread *= 0.995` branch — whereas the claim asserts the spread is
multiplied by `1 + 0.05·min(L/T − 1, 1)` and increases. -/
theorem finance_infinite_ratio_counterexample :
    (FinanceSystem.stepRegion ⟨0, 100, 0, 1/10, 0, 0, 2, 0, 0, 0⟩
        (0, 0, 0, 0, 0) 0).1.loan_rate_spread = 199/2000 ∧
    ¬ ((199/2000 : ℚ) = (1/10) * (1 + (5/100) * 1)) ∧
    (199/2000 : ℚ) < 1/10 := by
  refine ⟨?_, by norm_num, by norm_num⟩
  norm_num [FinanceSystem.stepRegion, FinanceSystem.preSpread, FinanceSystem.spreadAdjust,
    rclamp, EPS]

/-- Claim C6 (amended): when the spread adjustment runs with
`bank_deposits ≤ EPS` and `loan_balance > 0`, the loan-to-deposit ratio
is treated as infinite, which fails the source's `is_finite` guard, so
the spread is multiplied by `0.995` (it decreases); and after every
Finance step the spread lies in `[0, 0.5]`. -/
theorem finance_spread_adjust (fin : FinanceComponent)
    (hdep : fin.bank_deposits ≤ EPS) (hloan : 0 < fin.loan_balance) :
    (FinanceSystem.spreadAdjust fin).loan_rate_spread =
      rclamp (fin.loan_rate_spread * (995/1000)) 0 (1/2) ∧
    ∀ (g : FinanceComponent) (econ : ℚ × ℚ × ℚ × ℚ × ℚ) (dt : ℚ),
      0 ≤ (FinanceSystem.stepRegion g econ dt).1.loan_rate_spread ∧
      (FinanceSystem.stepRegion g econ dt).1.loan_rate_spread ≤ 1/2 := by
  constructor
  · simp only [FinanceSystem.spreadAdjust, not_lt.mpr hdep, if_false, hloan, if_true]
  · intro g econ dt
    exact ⟨rclamp_lo _ 0 (1/2) (by norm_num), rclamp_hi _ 0 (1/2)⟩

/-- Witness for `finance_spread_adjust`: the same all-zero-deposit
region as the counterexample. -/
theorem finance_spread_adjust_witness :
    ((0 : ℚ) ≤ EPS ∧ (0 : ℚ) < 100) ∧
    ((FinanceSystem.spreadAdjust ⟨0, 100, 0, 1/10, 0, 0, 2, 0, 0, 0⟩).loan_rate_spread =
      rclamp ((1/10) * (995/1000)) 0 (1/2) ∧
    ∀ (g : FinanceComponent) (econ : ℚ × ℚ × ℚ × ℚ × ℚ) (dt : ℚ),
      0 ≤ (FinanceSystem.stepRegion g econ dt).1.loan_rate_spread ∧
      (FinanceSystem.stepRegion g econ dt).1.loan_rate_spread ≤ 1/2) :=
  ⟨⟨by norm_num [EPS], by norm_num⟩,
    finance_spread_adjust ⟨0, 100, 0, 1/10, 0, 0, 2, 0, 0, 0⟩
      (by norm_num [EPS]) (by norm_num)⟩

/-- Both components of the worker split are non-negative when the inputs
are. -/
theorem EconomySystem.laborSplit_nonneg (employed lnf lne : ℚ)
    (he : 0 ≤ employed) (hf : 0 ≤ lnf) (hn : 0 ≤ lne) :
    0 ≤ (EconomySystem.laborSplit employed lnf lne).1 ∧
    0 ≤ (EconomySystem.laborSplit employed lnf lne).2 := by
  unfold EconomySystem.laborSplit
  split_ifs
  · exact ⟨mul_nonneg he (div_nonneg hf (add_nonneg hf hn)),
      mul_nonneg he (div_nonneg hn (add_nonneg hf hn))⟩
  · exact ⟨mul_nonneg he (by norm_num), mul_nonneg he (by norm_num)⟩

/-- Dispatched energy is non-negative when the raw output is. -/
theorem EconomySystem.dispatchCap_nonneg (energy_output : ℚ) (infra : Option (ℚ × ℚ))
    (dt : ℚ) (h : 0 ≤ energy_output) :
    0 ≤ EconomySystem.dispatchCap energy_output infra dt := by
  cases infra with
  | none => exact h
  | some p => exact le_min h (le_max_right _ 0)

/-- Claim C10 counterexample: a region with 1000 citizens, food
consumption 1 per capita and both prices 0 has desired consumption cost
`0 ≤ EPS`, so `demand_scale = 0` — but its `food_shortage_ratio` after
the step is `1`, not `0` as the claim asserts, because
`desired_food = 1000 > EPS` makes the shortage ratio
`clamp((desired_food − 0)/desired_food, 0, 1) = 1`. -/
theorem economy_zero_cost_counterexample :
    (EconomySystem.stepRegion 1000 0 1 0 ⟨0, 0⟩
        ⟨1, 1, 0, 0, 0, 0, 1, 0, 1, 0, 0, 0, 0, 0, 0, 0, 0, 0, 0, 0, 0⟩
        none 1).economy.food_shortage_ratio = 1 ∧
    ((1000 : ℚ) * 1 * 1 * 0 + (1000 : ℚ) * 0 * 1 * 0 ≤ EPS) ∧
    ((0 : ℕ) < 1000) ∧ ((1 : ℚ) ≠ 0) := by
  refine ⟨?_, by norm_num [EPS], by norm_num, by norm_num⟩
  norm_num [EconomySystem.stepRegion, EconomySystem.laborSplit, EconomySystem.dispatchCap,
    adjust_price, adjust_wages, rclamp, EPS]

/-- Claim C10 (amended): for any region with `citizens > 0`,
non-negative stocks and non-negative desired quantities whose desired
consumption cost is at most `EPS`, `demand_scale` is defined to be `0`
instead of being computed by division, so the sold quantities and
`sales_revenue` are `0` and no division by zero is performed; each
shortage ratio is `0` whenever the corresponding desired quantity is at
most `EPS` (in particular when both per-capita consumption rates are
`0`), but not in general. -/
theorem economy_zero_cost_guard (citizens employed : ℕ)
    (food_per_capita energy_per_capita : ℚ) (stock : ResourceStock)
    (economy : EconomyComponent) (infra : Option (ℚ × ℚ)) (dt : ℚ)
    (hcit : 0 < citizens)
    (hdf : 0 ≤ (citizens : ℚ) * food_per_capita * dt)
    (hde : 0 ≤ (citizens : ℚ) * energy_per_capita * dt)
    (hsf : 0 ≤ stock.food) (hse : 0 ≤ stock.energy)
    (hcost : (citizens : ℚ) * food_per_capita * dt * economy.food_price +
      (citizens : ℚ) * energy_per_capita * dt * economy.energy_price ≤ EPS) :
    let r := EconomySystem.stepRegion citizens employed food_per_capita energy_per_capita
      stock economy infra dt
    r.demand_scale = 0 ∧ r.sold_food = 0 ∧ r.sold_energy = 0 ∧
    r.economy.sales_revenue = 0 ∧
    ((citizens : ℚ) * food_per_capita * dt ≤ EPS → r.economy.food_shortage_ratio = 0) ∧
    ((citizens : ℚ) * energy_per_capita * dt ≤ EPS → r.economy.energy_shortage_ratio = 0) := by
  have hcQ : ¬ ((citizens : ℚ) ≤ 0) := by
    rw [not_le]
    exact_mod_cast hcit
  have hcost2 : ¬ (EPS < (citizens : ℚ) * food_per_capita * dt * economy.food_price +
      (citizens : ℚ) * energy_per_capita * dt * economy.energy_price) := not_lt.mpr hcost
  have hEPSnn : (0 : ℚ) ≤ EPS := by norm_num [EPS]
  simp only [EconomySystem.stepRegion, if_neg hcQ, if_neg hcost2, mul_zero, zero_mul,
    add_zero, zero_add]
  set pwf := max (economy.food_productivity_per_worker * dt) EPS with hpwfdef
  set pwe := max (economy.energy_productivity_per_worker * dt) EPS with hpwedef
  set df := (citizens : ℚ) * food_per_capita * dt with hdfdef
  set de := (citizens : ℚ) * energy_per_capita * dt with hdedef
  set lnf := (df + max (df * economy.target_inventory_days - stock.food) 0) / pwf with hlnfdef
  set lne := (de + max (de * economy.target_inventory_days - stock.energy) 0) / pwe with hlnedef
  set W := EconomySystem.laborSplit (employed : ℚ) lnf lne with hWdef
  have hlnf2 : 0 ≤ lnf :=
    div_nonneg (add_nonneg hdf (le_max_right _ 0)) (le_trans hEPSnn (le_max_right _ _))
  have hlne2 : 0 ≤ lne :=
    div_nonneg (add_nonneg hde (le_max_right _ 0)) (le_trans hEPSnn (le_max_right _ _))
  have hW2 := EconomySystem.laborSplit_nonneg (employed : ℚ) lnf lne (Nat.cast_nonneg _)
    hlnf2 hlne2
  have hpwf2 : (0 : ℚ) ≤ pwf := le_trans hEPSnn (le_max_right _ _)
  have hpwe2 : (0 : ℚ) ≤ pwe := le_trans hEPSnn (le_max_right _ _)
  have e1 : (0 : ℚ) ⊓ (stock.food + W.1 * pwf) = 0 :=
    min_eq_left (add_nonneg hsf (mul_nonneg hW2.1 hpwf2))
  have e2 : (0 : ℚ) ⊓ (stock.energy + EconomySystem.dispatchCap (W.2 * pwe) infra dt) = 0 :=
    min_eq_left (add_nonneg hse
      (EconomySystem.dispatchCap_nonneg _ _ _ (mul_nonneg hW2.2 hpwe2)))
  refine ⟨trivial, e1, e2, ?_, ?_, ?_⟩
  · rw [e1, e2]
    ring
  · intro h
    rw [if_neg (not_lt.mpr h)]
  · intro h
    rw [if_neg (not_lt.mpr h)]

/-- Witness for `economy_zero_cost_guard`: a 1000-citizen region with
zero per-capita consumption rates and unit prices. -/
theorem economy_zero_cost_guard_witness :
    ((0 : ℕ) < 1000 ∧ (0 : ℚ) ≤ (1000 : ℚ) * 0 * 1 ∧ (0 : ℚ) ≤ (1000 : ℚ) * 0 * 1 ∧
      (0 : ℚ) ≤ (0 : ℚ) ∧ (0 : ℚ) ≤ (0 : ℚ) ∧
      (1000 : ℚ) * 0 * 1 * 1 + (1000 : ℚ) * 0 * 1 * 1 ≤ EPS) ∧
    (let r := EconomySystem.stepRegion 1000 0 0 0 ⟨0, 0⟩
        ⟨1, 1, 0, 0, 0, 0, 1, 0, 1, 1, 1, 0, 0, 0, 0, 0, 0, 0, 0, 0, 0⟩ none 1
     r.demand_scale = 0 ∧ r.sold_food = 0 ∧ r.sold_energy = 0 ∧
     r.economy.sales_revenue = 0 ∧
     ((1000 : ℚ) * 0 * 1 ≤ EPS → r.economy.food_shortage_ratio = 0) ∧
     ((1000 : ℚ) * 0 * 1 ≤ EPS → r.economy.energy_shortage_ratio = 0)) :=
  ⟨⟨by norm_num, by norm_num, by norm_num, le_refl 0, le_refl 0, by norm_num [EPS]⟩,
    economy_zero_cost_guard 1000 0 0 0 ⟨0, 0⟩
      ⟨1, 1, 0, 0, 0, 0, 1, 0, 1, 1, 1, 0, 0, 0, 0, 0, 0, 0, 0, 0, 0⟩ none 1
      (by norm_num) (by norm_num) (by norm_num) (le_refl 0) (le_refl 0)
      (by norm_num [EPS])⟩

/-- Claim C8 counterexample: a region with `citizens = 0` whose scenario
supplied `tax_rate = 0.9` and `transfer_per_capita = 450` is skipped by
the Policy system (`continue` fires before any clamping), so after the
tick boundary both values are still outside the claimed bands
`[0.04, 0.65]` and `[5, 400]`. -/
theorem policy_zero_citizens_counterexample :
    (PolicySystem.runRegion ⟨9/10, 450, 0, 0, 0, 0, 0, 0, 0, 0, 0, 0, 0⟩
        (some (0, 0)) (some (0, 0, 0, 0)) 0 1).1.tax_rate = 9/10 ∧
    (PolicySystem.runRegion ⟨9/10, 450, 0, 0, 0, 0, 0, 0, 0, 0, 0, 0, 0⟩
        (some (0, 0)) (some (0, 0, 0, 0)) 0 1).1.transfer_per_capita = 450 ∧
    ¬ ((9/10 : ℚ) ≤ 65/100) ∧ ¬ ((450 : ℚ) ≤ 400) := by
  refine ⟨?_, ?_, by norm_num, by norm_num⟩ <;>
    norm_num [PolicySystem.runRegion]

/-- Claim C8 (amended): after the Policy step, every region that has
Population and Economy components and `citizens > 0` has
`tax_rate ∈ [0.04, 0.65]` and `transfer_per_capita ∈ [5, 400]` (the
final clamps of the source); regions with zero citizens or missing
components are skipped and keep whatever values the scenario supplied. -/
theorem policy_bands (policy : PolicyComponent) (citizens employed : ℕ)
    (econ : ℚ × ℚ × ℚ × ℚ) (baseline_rnd dt : ℚ) (hcit : 0 < citizens) :
    let r := (PolicySystem.runRegion policy (some (citizens, employed)) (some econ)
      baseline_rnd dt).1
    (4/100 ≤ r.tax_rate ∧ r.tax_rate ≤ 65/100) ∧
    (5 ≤ r.transfer_per_capita ∧ r.transfer_per_capita ≤ 400) := by
  have hcQ : ¬ ((citizens : ℚ) ≤ 0) := by
    rw [not_le]
    exact_mod_cast hcit
  obtain ⟨a, b, c, d⟩ := econ
  simp only [PolicySystem.runRegion, if_neg hcQ]
  exact ⟨⟨rclamp_lo _ _ _ (by norm_num), rclamp_hi _ _ _⟩,
    ⟨rclamp_lo _ _ _ (by norm_num), rclamp_hi _ _ _⟩⟩

/-- Witness for `policy_bands`: a 1000-citizen region with the same
out-of-band scenario values as the counterexample. -/
theorem policy_bands_witness :
    0 < 1000 ∧
    (let r := (PolicySystem.runRegion ⟨9/10, 450, 0, 0, 0, 0, 0, 0, 0, 0, 0, 0, 0⟩
        (some (1000, 500)) (some (0, 0, 0, 0)) 0 1).1
     ((4/100 ≤ r.tax_rate ∧ r.tax_rate ≤ 65/100) ∧
      (5 ≤ r.transfer_per_capita ∧ r.transfer_per_capita ≤ 400))) :=
  ⟨by norm_num,
    policy_bands ⟨9/10, 450, 0, 0, 0, 0, 0, 0, 0, 0, 0, 0, 0⟩ 1000 500
      (0, 0, 0, 0) 0 1 (by norm_num)⟩

/-- Claim C3 counterexample: at tick `0` with interval `5` the writer
*does* write `tick_000000.json` (the source never checks `tick > 0`),
although the claimed condition `I > 0 ∧ T > 0 ∧ T mod I = 0` is false
at `T = 0`. -/
theorem snapshot_tick_zero_counterexample :
    SnapshotManager.maybe_snapshot 5 "snapshots" "demo" 0 "x"
        (fun _ => Except.ok ()) (fun _ _ => Except.ok ()) =
      Except.ok (some "snapshots/demo/tick_000000.json") ∧
    ¬ (0 < 5 ∧ 0 < 0 ∧ 0 % 5 = 0) := by
  constructor
  · rfl
  · simp

/-- Claim C3 (amended): for every tick `T` and interval `I`, the writer
writes the file `<root>/<scenario>/tick_NNNNNN.json` (tick zero-padded
to six digits) exactly when `I > 0` and `T mod I = 0` — the source has
no `T > 0` test, though the engine only calls it with `T ≥ 1` — and any
directory-creation or file-write failure is propagated to the caller. -/
theorem snapshot_cadence_and_errors (interval tick : ℕ) (root scen json : String)
    (cd : String → Except String Unit) (wr : String → String → Except String Unit)
    (r : Except SnapshotError (Option String))
    (hr : r = SnapshotManager.maybe_snapshot interval root scen tick json cd wr) :
    let dir := root ++ "/" ++ scen
    let path := dir ++ "/" ++ ("tick_" ++ pad6 tick ++ ".json")
    (¬ (0 < interval ∧ tick % interval = 0) → r = Except.ok none) ∧
    (0 < interval ∧ tick % interval = 0 →
      (cd dir = Except.ok () → wr path json = Except.ok () → r = Except.ok (some path)) ∧
      (∀ e, cd dir = Except.error e → r = Except.error (SnapshotError.io e)) ∧
      (cd dir = Except.ok () →
        ∀ e, wr path json = Except.error e → r = Except.error (SnapshotError.io e))) := by
  subst hr
  intro dir path
  constructor
  · intro hno
    show SnapshotManager.maybe_snapshot interval root scen tick json cd wr = Except.ok none
    unfold SnapshotManager.maybe_snapshot
    rcases Nat.eq_zero_or_pos interval with hz | hp
    · rw [if_pos hz]
    · have hmod : tick % interval ≠ 0 := by
        intro h0
        exact hno ⟨hp, h0⟩
      rw [if_neg (Nat.pos_iff_ne_zero.mp hp), if_pos hmod]
  · rintro ⟨hp, hmod⟩
    have hfires : SnapshotManager.maybe_snapshot interval root scen tick json cd wr =
        match cd dir with
        | Except.error e => Except.error (SnapshotError.io e)
        | Except.ok _ =>
          match wr path json with
          | Except.error e => Except.error (SnapshotError.io e)
          | Except.ok _ => Except.ok (some path) := by
      unfold SnapshotManager.maybe_snapshot
      rw [if_neg (Nat.pos_iff_ne_zero.mp hp), if_neg (by simpa using hmod)]
    refine ⟨?_, ?_, ?_⟩
    · intro hcd hwr
      show SnapshotManager.maybe_snapshot interval root scen tick json cd wr = _
      rw [hfires, hcd, hwr]
    · intro e hcd
      show SnapshotManager.maybe_snapshot interval root scen tick json cd wr = _
      rw [hfires, hcd]
    · intro hcd e hwr
      show SnapshotManager.maybe_snapshot interval root scen tick json cd wr = _
      rw [hfires, hcd, hwr]

/-- Witness for `snapshot_cadence_and_errors`: interval `5`, tick `10`,
an always-succeeding filesystem. -/
theorem snapshot_cadence_and_errors_witness :
    SnapshotManager.maybe_snapshot 5 "snapshots" "demo" 10 "x"
        (fun _ => Except.ok ()) (fun _ _ => Except.ok ()) =
      Except.ok (some "snapshots/demo/tick_000010.json") := by
  have h := (snapshot_cadence_and_errors 5 10 "snapshots" "demo" "x"
      (fun _ => Except.ok ()) (fun _ _ => Except.ok ()) _ rfl).2 ⟨by norm_num, by norm_num⟩
  exact h.1 rfl rfl

/-- Claim C4: after the Bookkeeping system completes, every region's
resource stock has `food ≥ 0` and `energy ≥ 0`, the starving-regions
list is sorted and duplicate-free, and no other world state is modified
(tick, time, every other component store and the resource keys are
untouched). -/
theorem bookkeeping_postconditions (world : World) :
    let r := BookkeepingSystem.run world
    (∀ p ∈ r.resources, 0 ≤ p.2.food ∧ 0 ≤ p.2.energy) ∧
    r.bookkeeping.starving_regions.Sorted (· ≤ ·) ∧
    r.bookkeeping.starving_regions.Nodup ∧
    r.tick = world.tick ∧ r.days_elapsed = world.days_elapsed ∧
    r.dt_days = world.dt_days ∧ r.next_entity = world.next_entity ∧
    r.regions = world.regions ∧ r.populations = world.populations ∧
    r.economies = world.economies ∧ r.finances = world.finances ∧
    r.infrastructure = world.infrastructure ∧ r.policies = world.policies ∧
    r.technology = world.technology ∧
    r.resources.map Prod.fst = world.resources.map Prod.fst := by
  refine ⟨?_, ?_, ?_, rfl, rfl, rfl, rfl, rfl, rfl, rfl, rfl, rfl, rfl, rfl, ?_⟩
  · intro p hp
    simp only [BookkeepingSystem.run, List.mem_map] at hp
    obtain ⟨q, _, rfl⟩ := hp
    exact ⟨le_max_right _ 0, le_max_right _ 0⟩
  · exact List.Pairwise.sublist (List.dedup_sublist _)
      (List.sorted_insertionSort _ _)
  · exact List.nodup_dedup _
  · simp [BookkeepingSystem.run]

/-- `List.range'` with step 1 is strictly increasing. -/
theorem range'_pairwise_lt (n : ℕ) : ∀ s : ℕ, List.Pairwise (· < ·) (List.range' s n) := by
  induction n with
  | zero => intro s; exact List.Pairwise.nil
  | succ m ih =>
    intro s
    rw [List.range'_succ s m 1]
    refine List.Pairwise.cons ?_ (ih (s + 1))
    intro b hb
    have := (List.mem_range'_1.mp hb).1
    omega

/-- The system fold of one tick leaves the tick counter unchanged when
every system in the list does. -/
theorem Engine.sysfold_tick (seedFrom : ℕ → Gen) (drawSeed : Gen → ℕ × Gen)
    (scenario : String) (ct : ℕ) :
    ∀ (systems : List (SystemImpl Gen)),
      (∀ s ∈ systems, ∀ (ctx : SystemContext) (w : World) (g : Gen),
        ((s.run ctx w g).1).tick = w.tick) →
      ∀ acc : World × RngManager Gen,
        ((systems.foldl (Engine.sysStep seedFrom drawSeed scenario ct) acc).1).tick =
          acc.1.tick := by
  intro systems
  induction systems with
  | nil => intro _ acc; rfl
  | cons s ss ih =>
    intro hsys acc
    rw [List.foldl_cons]
    rw [ih (fun t ht => hsys t (List.mem_cons_of_mem s ht))]
    exact hsys s (List.mem_cons_self s ss) ..

/-- One engine tick advances the tick counter by exactly one when every
system preserves it. -/
theorem Engine.tickOnce_tick (seedFrom : ℕ → Gen) (drawSeed : Gen → ℕ × Gen)
    (scenario : String) (systems : List (SystemImpl Gen))
    (hsys : ∀ s ∈ systems, ∀ (ctx : SystemContext) (w : World) (g : Gen),
      ((s.run ctx w g).1).tick = w.tick)
    (world : World) (rng : RngManager Gen) :
    ((Engine.tickOnce seedFrom drawSeed scenario systems world rng).1).tick =
      world.tick + 1 := by
  show ((systems.foldl _ (world, rng)).1.advance_time).tick = world.tick + 1
  rw [World.advance_time]
  rw [Engine.sysfold_tick seedFrom drawSeed scenario world.tick systems hsys (world, rng)]

/-- `run_with_hook` emits exactly `ticks` frames. -/
theorem Engine.runWithHook_length (seedFrom : ℕ → Gen) (drawSeed : Gen → ℕ × Gen)
    (settings : EngineSettings) (systems : List (SystemImpl Gen)) :
    ∀ (ticks : ℕ) (world : World) (rng : RngManager Gen),
      ((Engine.runWithHook seedFrom drawSeed settings systems world rng
        ticks).2.2.2).length = ticks := by
  intro ticks
  induction ticks with
  | zero => intro world rng; rfl
  | succ n ih =>
    intro world rng
    show (_ :: _).length = n + 1
    rw [List.length_cons, ih]

/-- The tick numbers of the emitted frames are the consecutive range
starting one past the initial tick. -/
theorem Engine.runWithHook_frame_ticks (seedFrom : ℕ → Gen) (drawSeed : Gen → ℕ × Gen)
    (settings : EngineSettings) (systems : List (SystemImpl Gen))
    (hsys : ∀ s ∈ systems, ∀ (ctx : SystemContext) (w : World) (g : Gen),
      ((s.run ctx w g).1).tick = w.tick) :
    ∀ (ticks : ℕ) (world : World) (rng : RngManager Gen),
      ((Engine.runWithHook seedFrom drawSeed settings systems world rng
        ticks).2.2.2).map (fun f => f.snap.tick) = List.range' (world.tick + 1) ticks := by
  intro ticks
  induction ticks with
  | zero => intro world rng; rfl
  | succ n ih =>
    intro world rng
    show ((_ : HookFrame) :: _).map _ = _
    rw [List.map_cons, List.range'_succ world.tick.succ n 1, ih]
    have ht := Engine.tickOnce_tick seedFrom drawSeed settings.scenario_name systems hsys
      world rng
    show ((Engine.tickOnce seedFrom drawSeed settings.scenario_name systems world
        rng).1.snapshot settings.scenario_name).tick :: _ = _
    show (Engine.tickOnce seedFrom drawSeed settings.scenario_name systems world
        rng).1.tick :: _ = _
    rw [ht]

/-- Exactly the last emitted frame carries `completed = true`. -/
theorem Engine.runWithHook_completed (seedFrom : ℕ → Gen) (drawSeed : Gen → ℕ × Gen)
    (settings : EngineSettings) (systems : List (SystemImpl Gen)) :
    ∀ (ticks : ℕ) (world : World) (rng : RngManager Gen) (i : ℕ)
      (hi : i < ((Engine.runWithHook seedFrom drawSeed settings systems world rng
        ticks).2.2.2).length),
      (((Engine.runWithHook seedFrom drawSeed settings systems world rng
        ticks).2.2.2).get ⟨i, hi⟩).completed = true ↔ i = ticks - 1 := by
  intro ticks
  induction ticks with
  | zero =>
    intro world rng i hi
    rw [Engine.runWithHook_length] at hi
    exact absurd hi (Nat.not_lt_zero i)
  | succ n ih =>
    intro world rng i hi
    match i with
    | 0 =>
      show (decide (n = 0) = true) ↔ (0 = n + 1 - 1)
      rw [decide_eq_true_iff]
      omega
    | j + 1 =>
      have hj : j < ((Engine.runWithHook seedFrom drawSeed settings systems
          (Engine.tickOnce seedFrom drawSeed settings.scenario_name systems world rng).1
          (Engine.tickOnce seedFrom drawSeed settings.scenario_name systems world rng).2
          n).2.2.2).length := by
        have := hi
        rw [Engine.runWithHook_length] at this ⊢
        omega
      have hrec := ih (Engine.tickOnce seedFrom drawSeed settings.scenario_name systems
          world rng).1
        (Engine.tickOnce seedFrom drawSeed settings.scenario_name systems world rng).2 j hj
      show (((Engine.runWithHook seedFrom drawSeed settings systems
          (Engine.tickOnce seedFrom drawSeed settings.scenario_name systems world rng).1
          (Engine.tickOnce seedFrom drawSeed settings.scenario_name systems world rng).2
          n).2.2.2).get ⟨j, hj⟩).completed = true ↔ (j + 1 = n + 1 - 1)
      rw [hrec]
      have hn : 1 ≤ n := by
        have := hj
        rw [Engine.runWithHook_length] at this
        omega
      omega

/-- Claim C2: for every `run(world, ticks, hook)` call over systems that
leave the tick counter alone (as all systems in the tree do), the hook
is invoked exactly `ticks` times, the tick numbers of the delivered
frames are strictly increasing (they are the consecutive range starting
one past the initial tick), and a delivered frame has `completed = true`
exactly when it is the last one. -/
theorem hook_frames_count_order_completed (Gen : Type) (seedFrom : ℕ → Gen)
    (drawSeed : Gen → ℕ × Gen) (settings : EngineSettings)
    (systems : List (SystemImpl Gen)) (world : World) (rng : RngManager Gen) (ticks : ℕ)
    (hsys : ∀ s ∈ systems, ∀ (ctx : SystemContext) (w : World) (g : Gen),
      ((s.run ctx w g).1).tick = w.tick) :
    let frames := (Engine.runWithHook seedFrom drawSeed settings systems world rng
      ticks).2.2.2
    frames.length = ticks ∧
    List.Pairwise (· < ·) (frames.map (fun f => f.snap.tick)) ∧
    ∀ (i : ℕ) (hi : i < frames.length),
      (frames.get ⟨i, hi⟩).completed = true ↔ i = ticks - 1 := by
  refine ⟨Engine.runWithHook_length seedFrom drawSeed settings systems ticks world rng,
    ?_, Engine.runWithHook_completed seedFrom drawSeed settings systems ticks world rng⟩
  rw [Engine.runWithHook_frame_ticks seedFrom drawSeed settings systems hsys ticks world rng]
  exact range'_pairwise_lt ticks (world.tick + 1)

/-- Witness for `hook_frames_count_order_completed`: a two-tick run of
an engine with no systems over an empty world, with the natural-number
counter generator. -/
theorem hook_frames_count_order_completed_witness :
    (∀ s ∈ ([] : List (SystemImpl ℕ)), ∀ (ctx : SystemContext) (w : World) (g : ℕ),
      ((s.run ctx w g).1).tick = w.tick) ∧
    (let frames := (Engine.runWithHook (fun n => n) (fun g => (g, g + 1))
        ⟨"demo", 42, 0, "snapshots"⟩ ([] : List (SystemImpl ℕ))
        ⟨0, 0, 0, 1, [], [], [], [], [], [], [], [], ⟨[]⟩⟩
        (RngManager.new (fun n => n) 42) 2).2.2.2
     frames.length = 2 ∧
     List.Pairwise (· < ·) (frames.map (fun f => f.snap.tick)) ∧
     ∀ (i : ℕ) (hi : i < frames.length),
       (frames.get ⟨i, hi⟩).completed = true ↔ i = 2 - 1) :=
  ⟨fun s hs => absurd hs (List.not_mem_nil s),
    hook_frames_count_order_completed ℕ (fun n => n) (fun g => (g, g + 1))
      ⟨"demo", 42, 0, "snapshots"⟩ [] ⟨0, 0, 0, 1, [], [], [], [], [], [], [], [], ⟨[]⟩⟩
      (RngManager.new (fun n => n) 42) 2
      (fun s hs => absurd hs (List.not_mem_nil s))⟩

/-- Claim C1: the engine run is deterministic.  The embedding of
`Engine::run` / `run_with_hook`, `RngManager` and the systems is pure
and parametric in the generator implementation, so two executions over
identically built worlds with the same seed, the same settings and the
same system list produce the same final world (hence the same
`total_population` and per-region values), the same snapshot file
writes (paths and contents) and the same hook frames at every tick,
for every generator implementation `(seedFrom, drawSeed)`. -/
theorem engine_run_deterministic (Gen : Type) (seedFrom : ℕ → Gen)
    (drawSeed : Gen → ℕ × Gen) (settings1 settings2 : EngineSettings)
    (systems1 systems2 : List (SystemImpl Gen)) (world1 world2 : World) (ticks : ℕ)
    (hset : settings1 = settings2) (hsys : systems1 = systems2) (hw : world1 = world2) :
    let r1 := Engine.runWithHook seedFrom drawSeed settings1 systems1 world1
      (RngManager.new seedFrom settings1.seed) ticks
    let r2 := Engine.runWithHook seedFrom drawSeed settings2 systems2 world2
      (RngManager.new seedFrom settings2.seed) ticks
    r1.1 = r2.1 ∧ r1.1.total_population = r2.1.total_population ∧
    r1.2.2.1 = r2.2.2.1 ∧ r1.2.2.2 = r2.2.2.2 := by
  subst hset
  subst hsys
  subst hw
  exact ⟨rfl, rfl, rfl, rfl⟩

/-- Witness for `engine_run_deterministic`: the same two-tick
configuration as the hook-order witness, run twice. -/
theorem engine_run_deterministic_witness :
    ((⟨"demo", 42, 5, "snapshots"⟩ : EngineSettings) = ⟨"demo", 42, 5, "snapshots"⟩ ∧
      ([] : List (SystemImpl ℕ)) = [] ∧
      (⟨0, 0, 0, 1, [], [], [], [], [], [], [], [], ⟨[]⟩⟩ : World) =
        ⟨0, 0, 0, 1, [], [], [], [], [], [], [], [], ⟨[]⟩⟩) ∧
    (let r1 := Engine.runWithHook (fun n => n) (fun g => (g, g + 1))
        ⟨"demo", 42, 5, "snapshots"⟩ ([] : List (SystemImpl ℕ))
        ⟨0, 0, 0, 1, [], [], [], [], [], [], [], [], ⟨[]⟩⟩
        (RngManager.new (fun n => n) 42) 2
     let r2 := Engine.runWithHook (fun n => n) (fun g => (g, g + 1))
        ⟨"demo", 42, 5, "snapshots"⟩ ([] : List (SystemImpl ℕ))
        ⟨0, 0, 0, 1, [], [], [], [], [], [], [], [], ⟨[]⟩⟩
        (RngManager.new (fun n => n) 42) 2
     r1.1 = r2.1 ∧ r1.1.total_population = r2.1.total_population ∧
     r1.2.2.1 = r2.2.2.1 ∧ r1.2.2.2 = r2.2.2.2) :=
  ⟨⟨rfl, rfl, rfl⟩,
    engine_run_deterministic ℕ (fun n => n) (fun g => (g, g + 1))
      ⟨"demo", 42, 5, "snapshots"⟩ ⟨"demo", 42, 5, "snapshots"⟩ [] []
      ⟨0, 0, 0, 1, [], [], [], [], [], [], [], [], ⟨[]⟩⟩
      ⟨0, 0, 0, 1, [], [], [], [], [], [], [], [], ⟨[]⟩⟩ 2 rfl rfl rfl⟩
